import Mathlib

/-!
Shallow embedding of the XDP packet decoder in
`src/app/xdp_libbpf/src/bpf/xdp_hello.bpf.c` (function `xdp_hello`,
event struct `xdp_event`, ring-buffer map `xdp_events`).

A frame is the received packet's byte sequence plus metadata (ingress
interface index and the value `bpf_ktime_get_ns()` returns during its
processing).  Machine integers are modelled as `Nat` with explicit
`% 2^w` where the code truncates.  The program targets a little-endian
host (x86-64 / aarch64, the standard libbpf targets): a 16-bit load of
a wire field yields `b0 + 256 * b1` and `bpf_ntohs` is a byte swap.

The ring buffer `bpf_ringbuf_reserve` is kernel code, not part of the
repository; its outcome (slot available or not) is passed in as the
boolean `reserveOk`, and the result records whether a reservation was
attempted and which event record, if any, was submitted.

Two versions of the decoder are given:
* `xdp_hello` — total, reads via `byteAt` (out-of-range reads default
  to 0), translated branch by branch from the C source;
* `xdp_helloE` — identical control flow but every byte read is fallible
  (`Except Unit`), erroring on any out-of-range access.  Bounds safety
  of the source is the statement that `xdp_helloE` never errors and
  agrees with `xdp_hello`.
-/

structure Frame where
  bytes : List Nat
  ifindex : Nat
  timestamp : Nat

/-- One byte of frame memory; memory holds bytes, so the stored value
is reduced mod 256.  Out-of-range reads default to 0 (the total
reading mode; `readByteE` below is the checked one). -/
def byteAt (f : Frame) (i : Nat) : Nat := (f.bytes.get? i).getD 0 % 256

/-- Little-endian 16-bit load at offset `i`, as the host CPU performs
it on a `__u16` field. -/
def load16le (f : Frame) (i : Nat) : Nat :=
  byteAt f i + 256 * byteAt f (i + 1)

/-- Little-endian 32-bit load at offset `i`. -/
def load32le (f : Frame) (i : Nat) : Nat :=
  byteAt f i + 256 * byteAt f (i + 1) + 65536 * byteAt f (i + 2) +
    16777216 * byteAt f (i + 3)

/-- The helper `bpf_ntohs` on a little-endian host: swap the two bytes
of a 16-bit value. -/
def ntohs (x : Nat) : Nat := x % 256 * 256 + x / 256 % 256

def ETH_P_IP : Nat := 0x0800
def IPPROTO_TCP : Nat := 6
def IPPROTO_UDP : Nat := 17
def XDP_PASS : Nat := 2

/-- The event record `struct xdp_event`, fields in source order; the
array `eth_proto[2]` is split into `eth_proto0`, `eth_proto1`. -/
structure xdp_event where
  timestamp : Nat
  ifindex : Nat
  protocol : Nat
  src_ip : Nat
  dst_ip : Nat
  src_port : Nat
  dst_port : Nat
  pkt_len : Nat
  eth_proto0 : Nat
  eth_proto1 : Nat
deriving DecidableEq

/-- Outcome of one run of `xdp_hello`: the XDP verdict, whether
`bpf_ringbuf_reserve` was called, and the record passed to
`bpf_ringbuf_submit`, if any. -/
structure XdpResult where
  verdict : Nat
  reserveAttempted : Bool
  submitted : Option xdp_event
deriving DecidableEq

/-- The early `return XDP_PASS` outcome, taken before any ring-buffer
interaction. -/
def passNoEvent : XdpResult :=
  { verdict := XDP_PASS, reserveAttempted := false, submitted := none }

/-- The tail of `xdp_hello` from `bpf_ringbuf_reserve` on: if a slot is
obtained the event is populated field by field exactly as the source
does and submitted; otherwise nothing is written and nothing is
committed.  `eth->h_proto` is the little-endian 16-bit load at offset
12; `event->eth_proto[0]` stores its high host byte (`>> 8`, truncated
to `__u8`) and `event->eth_proto[1]` its low host byte (`& 0xFF`);
`saddr` and `daddr` sit at byte offsets 26 and 30 and are copied with
no byte-order conversion; `pkt_len` is `data_end - data`, the frame
length. -/
def emitEvent (f : Frame) (reserveOk : Bool) (proto srcp dstp : Nat) : XdpResult :=
  if reserveOk then
    { verdict := XDP_PASS
      reserveAttempted := true
      submitted := some
        { timestamp := f.timestamp
          ifindex := f.ifindex
          protocol := proto
          src_ip := load32le f 26
          dst_ip := load32le f 30
          src_port := srcp
          dst_port := dstp
          pkt_len := f.bytes.length
          eth_proto0 := load16le f 12 / 256 % 256
          eth_proto1 := load16le f 12 % 256 } }
  else
    { verdict := XDP_PASS, reserveAttempted := true, submitted := none }

/-- The function `xdp_hello`, translated from the source.  Offsets: the
Ethernet header is 14 bytes with `h_proto` at 12; the IPv4 header
starts at 14 (`ihl` is the low nibble of byte 14, `protocol` is byte
23, `saddr` occupies bytes 26..29, `daddr` bytes 30..33); the transport
header starts at `14 + ihl * 4` with both 16-bit port fields in its
first four bytes.  Each pointer-versus-`data_end` comparison of the
source becomes an `offset + size > len` comparison. -/
def xdp_hello (f : Frame) (reserveOk : Bool) : XdpResult :=
  let len := f.bytes.length
  if 14 > len then passNoEvent
  else if ntohs (load16le f 12) = ETH_P_IP then
    if 14 + 20 > len then passNoEvent
    else
      let ihl := byteAt f 14 % 16
      let proto := byteAt f 23
      let toff := 14 + ihl * 4
      if proto = IPPROTO_TCP then
        if toff + 20 > len then passNoEvent
        else emitEvent f reserveOk proto (ntohs (load16le f toff))
          (ntohs (load16le f (toff + 2)))
      else if proto = IPPROTO_UDP then
        if toff + 8 > len then passNoEvent
        else emitEvent f reserveOk proto (ntohs (load16le f toff))
          (ntohs (load16le f (toff + 2)))
      else emitEvent f reserveOk proto 0 0
  else passNoEvent

/-- Checked byte read: an out-of-range access is an error instead of a
default value. -/
def readByteE (f : Frame) (i : Nat) : Except Unit Nat :=
  match f.bytes.get? i with
  | some b => Except.ok (b % 256)
  | none => Except.error ()

/-- Checked little-endian 16-bit load. -/
def load16leE (f : Frame) (i : Nat) : Except Unit Nat :=
  match readByteE f i, readByteE f (i + 1) with
  | Except.ok a, Except.ok b => Except.ok (a + 256 * b)
  | _, _ => Except.error ()

/-- Checked little-endian 32-bit load. -/
def load32leE (f : Frame) (i : Nat) : Except Unit Nat :=
  match readByteE f i, readByteE f (i + 1), readByteE f (i + 2),
      readByteE f (i + 3) with
  | Except.ok a, Except.ok b, Except.ok c, Except.ok d =>
      Except.ok (a + 256 * b + 65536 * c + 16777216 * d)
  | _, _, _, _ => Except.error ()

/-- Checked version of `emitEvent`: the field reads performed while
populating the record are fallible. -/
def emitEventE (f : Frame) (reserveOk : Bool) (proto srcp dstp : Nat) :
    Except Unit XdpResult :=
  if reserveOk then
    Except.bind (load16leE f 12) fun hp =>
    Except.bind (load32leE f 26) fun sa =>
    Except.bind (load32leE f 30) fun da =>
    Except.ok
      { verdict := XDP_PASS
        reserveAttempted := true
        submitted := some
          { timestamp := f.timestamp
            ifindex := f.ifindex
            protocol := proto
            src_ip := sa
            dst_ip := da
            src_port := srcp
            dst_port := dstp
            pkt_len := f.bytes.length
            eth_proto0 := hp / 256 % 256
            eth_proto1 := hp % 256 } }
  else
    Except.ok { verdict := XDP_PASS, reserveAttempted := true, submitted := none }

/-- Checked version of `xdp_hello`: same control flow, every byte read
fallible.  Bounds safety of the source program is the theorem that this
function never returns `Except.error`. -/
def xdp_helloE (f : Frame) (reserveOk : Bool) : Except Unit XdpResult :=
  let len := f.bytes.length
  if 14 > len then Except.ok passNoEvent
  else
    Except.bind (load16leE f 12) fun hp =>
    if ntohs hp = ETH_P_IP then
      if 14 + 20 > len then Except.ok passNoEvent
      else
        Except.bind (readByteE f 14) fun b14 =>
        Except.bind (readByteE f 23) fun proto =>
        let ihl := b14 % 16
        let toff := 14 + ihl * 4
        if proto = IPPROTO_TCP then
          if toff + 20 > len then Except.ok passNoEvent
          else
            Except.bind (load16leE f toff) fun s =>
            Except.bind (load16leE f (toff + 2)) fun d =>
            emitEventE f reserveOk proto (ntohs s) (ntohs d)
        else if proto = IPPROTO_UDP then
          if toff + 8 > len then Except.ok passNoEvent
          else
            Except.bind (load16leE f toff) fun s =>
            Except.bind (load16leE f (toff + 2)) fun d =>
            emitEventE f reserveOk proto (ntohs s) (ntohs d)
        else emitEventE f reserveOk proto 0 0
    else Except.ok passNoEvent

/-- A 54-byte Ethernet/IPv4/TCP frame: ethertype 0x0800, ihl 5,
protocol 6, saddr 10.0.0.1, daddr 10.0.0.2, TCP source port 80,
destination port 12345. -/
def tcpFrame : Frame :=
  { bytes :=
      [1, 2, 3, 4, 5, 6, 7, 8, 9, 10, 11, 12, 0x08, 0x00,
       0x45, 0, 0, 40, 0, 0, 0, 0, 64, 6, 0, 0, 10, 0, 0, 1, 10, 0, 0, 2,
       0, 80, 0x30, 0x39, 0, 0, 0, 0, 0, 0, 0, 0, 0x50, 0, 0, 0, 0, 0, 0, 0]
    ifindex := 3
    timestamp := 99 }

/-- The event `xdp_hello` submits for `tcpFrame` when a ring-buffer
slot is available. -/
def tcpFrameEvent : xdp_event :=
  { timestamp := 99
    ifindex := 3
    protocol := 6
    src_ip := 16777226
    dst_ip := 33554442
    src_port := 80
    dst_port := 12345
    pkt_len := 54
    eth_proto0 := 0
    eth_proto1 := 8 }

/-- A 3-byte frame, shorter than an Ethernet header. -/
def shortFrame : Frame := { bytes := [1, 2, 3], ifindex := 0, timestamp := 0 }

/-- A 36-byte frame with ethertype 0x0806 (ARP), not IPv4. -/
def arpFrame : Frame :=
  { bytes :=
      [1, 2, 3, 4, 5, 6, 7, 8, 9, 10, 11, 12, 0x08, 0x06,
       0, 0, 0, 0, 0, 0, 0, 0, 0, 0, 0, 0, 0, 0, 0, 0, 0, 0, 0, 0, 0, 0]
    ifindex := 0
    timestamp := 0 }

/-- A 34-byte Ethernet/IPv4/ICMP frame: ethertype 0x0800, ihl 5,
protocol 1 (neither TCP nor UDP). -/
def icmpFrame : Frame :=
  { bytes :=
      [1, 2, 3, 4, 5, 6, 7, 8, 9, 10, 11, 12, 0x08, 0x00,
       0x45, 0, 0, 20, 0, 0, 0, 0, 64, 1, 0, 0, 192, 168, 0, 1, 192, 168, 0, 2]
    ifindex := 7
    timestamp := 5 }

/-- A 34-byte Ethernet/IPv4 frame with protocol 6 (TCP) and ihl 5 but
no room for the 20-byte TCP header (truncated transport header). -/
def truncTcpFrame : Frame :=
  { bytes :=
      [1, 2, 3, 4, 5, 6, 7, 8, 9, 10, 11, 12, 0x08, 0x00,
       0x45, 0, 0, 20, 0, 0, 0, 0, 64, 6, 0, 0, 192, 168, 0, 1, 192, 168, 0, 2]
    ifindex := 7
    timestamp := 5 }

/-- A 34-byte Ethernet/IPv4 frame with protocol 6 (TCP) and ihl 0: the
transport offset is 14, inside the IPv4 header region, and the bounds
check `14 + 20 <= 34` still passes. -/
def ihl0TcpFrame : Frame :=
  { bytes :=
      [1, 2, 3, 4, 5, 6, 7, 8, 9, 10, 11, 12, 0x08, 0x00,
       0x40, 0, 0, 20, 0, 0, 0, 0, 64, 6, 0, 0, 192, 168, 0, 1, 192, 168, 0, 2]
    ifindex := 7
    timestamp := 5 }

theorem byteAt_lt (f : Frame) (i : Nat) : byteAt f i < 256 :=
  Nat.mod_lt _ (by omega)

theorem ntohs_load16le (f : Frame) (i j : Nat) (hj : j = i + 1) :
    ntohs (load16le f i) = byteAt f i * 256 + byteAt f j := by
  subst hj
  have h1 := byteAt_lt f i
  have h2 := byteAt_lt f (i + 1)
  unfold ntohs load16le
  omega

theorem bindOk {α β : Type} (x : α) (g : α → Except Unit β) :
    Except.bind (Except.ok x) g = g x := rfl

theorem readByteE_ok (f : Frame) (i : Nat) (h : i < f.bytes.length) :
    readByteE f i = Except.ok (byteAt f i) := by
  unfold readByteE byteAt
  cases hg : f.bytes.get? i with
  | none =>
      have := List.get?_eq_none.mp hg
      omega
  | some b => rfl

theorem load16leE_ok (f : Frame) (i : Nat) (h : i + 2 ≤ f.bytes.length) :
    load16leE f i = Except.ok (load16le f i) := by
  unfold load16leE load16le
  rw [readByteE_ok f i (by omega), readByteE_ok f (i + 1) (by omega)]

theorem load32leE_ok (f : Frame) (i : Nat) (h : i + 4 ≤ f.bytes.length) :
    load32leE f i = Except.ok (load32le f i) := by
  unfold load32leE load32le
  rw [readByteE_ok f i (by omega), readByteE_ok f (i + 1) (by omega),
    readByteE_ok f (i + 2) (by omega), readByteE_ok f (i + 3) (by omega)]

theorem emitEventE_ok (f : Frame) (ok : Bool) (p s d : Nat)
    (h : 34 ≤ f.bytes.length) :
    emitEventE f ok p s d = Except.ok (emitEvent f ok p s d) := by
  cases ok with
  | false => rfl
  | true =>
      unfold emitEventE emitEvent
      rw [load16leE_ok f 12 (by omega), load32leE_ok f 26 (by omega),
        load32leE_ok f 30 (by omega)]
      rfl

/-- Case split on which of the two exit forms `xdp_hello` takes; the
branch taken is independent of the ring-buffer outcome. -/
theorem xdp_hello_shape (f : Frame) :
    (∀ ok, xdp_hello f ok = passNoEvent) ∨
      ∃ p s d, ∀ ok, xdp_hello f ok = emitEvent f ok p s d := by
  by_cases h14 : 14 > f.bytes.length
  · refine Or.inl fun ok => ?_
    simp only [xdp_hello]
    rw [if_pos h14]
  · by_cases hip : ntohs (load16le f 12) = ETH_P_IP
    · by_cases h34 : 14 + 20 > f.bytes.length
      · refine Or.inl fun ok => ?_
        simp only [xdp_hello]
        rw [if_neg h14, if_pos hip, if_pos h34]
      · by_cases htcp : byteAt f 23 = IPPROTO_TCP
        · by_cases hfit : 14 + byteAt f 14 % 16 * 4 + 20 > f.bytes.length
          · refine Or.inl fun ok => ?_
            simp only [xdp_hello]
            rw [if_neg h14, if_pos hip, if_neg h34, if_pos htcp, if_pos hfit]
          · refine Or.inr ⟨byteAt f 23,
              ntohs (load16le f (14 + byteAt f 14 % 16 * 4)),
              ntohs (load16le f (14 + byteAt f 14 % 16 * 4 + 2)), fun ok => ?_⟩
            simp only [xdp_hello]
            rw [if_neg h14, if_pos hip, if_neg h34, if_pos htcp, if_neg hfit]
        · by_cases hudp : byteAt f 23 = IPPROTO_UDP
          · by_cases hfit : 14 + byteAt f 14 % 16 * 4 + 8 > f.bytes.length
            · refine Or.inl fun ok => ?_
              simp only [xdp_hello]
              rw [if_neg h14, if_pos hip, if_neg h34, if_neg htcp, if_pos hudp,
                if_pos hfit]
            · refine Or.inr ⟨byteAt f 23,
                ntohs (load16le f (14 + byteAt f 14 % 16 * 4)),
                ntohs (load16le f (14 + byteAt f 14 % 16 * 4 + 2)), fun ok => ?_⟩
              simp only [xdp_hello]
              rw [if_neg h14, if_pos hip, if_neg h34, if_neg htcp, if_pos hudp,
                if_neg hfit]
          · refine Or.inr ⟨byteAt f 23, 0, 0, fun ok => ?_⟩
            simp only [xdp_hello]
            rw [if_neg h14, if_pos hip, if_neg h34, if_neg htcp, if_neg hudp]
    · refine Or.inl fun ok => ?_
      simp only [xdp_hello]
      rw [if_neg h14, if_neg hip]

/-- Claim C1: bounds safety of decoding.  For every frame and every
ring-buffer outcome, the checked decoder `xdp_helloE`, in which any
read outside `[0, L)` returns an error, never takes that error branch:
every field access in the source is preceded by a bounds check that the
whole candidate header lies within the frame, so the checked run
returns exactly the total run's result. -/
theorem xdp_hello_bounds_safe (f : Frame) (ok : Bool) :
    xdp_helloE f ok = Except.ok (xdp_hello f ok) := by
  simp only [xdp_helloE, xdp_hello]
  by_cases h14 : 14 > f.bytes.length
  · rw [if_pos h14, if_pos h14]
  · rw [if_neg h14, if_neg h14]
    simp only [load16leE_ok f 12 (by omega), bindOk]
    by_cases hip : ntohs (load16le f 12) = ETH_P_IP
    · rw [if_pos hip, if_pos hip]
      by_cases h34 : 14 + 20 > f.bytes.length
      · rw [if_pos h34, if_pos h34]
      · rw [if_neg h34, if_neg h34]
        simp only [readByteE_ok f 14 (by omega), readByteE_ok f 23 (by omega),
          bindOk]
        by_cases htcp : byteAt f 23 = IPPROTO_TCP
        · rw [if_pos htcp, if_pos htcp]
          by_cases hfit : 14 + byteAt f 14 % 16 * 4 + 20 > f.bytes.length
          · rw [if_pos hfit, if_pos hfit]
          · rw [if_neg hfit, if_neg hfit]
            simp only [load16leE_ok f (14 + byteAt f 14 % 16 * 4) (by omega),
              load16leE_ok f (14 + byteAt f 14 % 16 * 4 + 2) (by omega), bindOk]
            exact emitEventE_ok f ok _ _ _ (by omega)
        · rw [if_neg htcp, if_neg htcp]
          by_cases hudp : byteAt f 23 = IPPROTO_UDP
          · rw [if_pos hudp, if_pos hudp]
            by_cases hfit : 14 + byteAt f 14 % 16 * 4 + 8 > f.bytes.length
            · rw [if_pos hfit, if_pos hfit]
            · rw [if_neg hfit, if_neg hfit]
              simp only [load16leE_ok f (14 + byteAt f 14 % 16 * 4) (by omega),
                load16leE_ok f (14 + byteAt f 14 % 16 * 4 + 2) (by omega), bindOk]
              exact emitEventE_ok f ok _ _ _ (by omega)
          · rw [if_neg hudp, if_neg hudp]
            exact emitEventE_ok f ok _ _ _ (by omega)
    · rw [if_neg hip, if_neg hip]

/-- Claim C2: for every frame shorter than 14 bytes (too short for an
Ethernet header) and every ring-buffer outcome, `xdp_hello` attempts no
ring-buffer reservation, submits no event, and returns the `XDP_PASS`
verdict immediately. -/
theorem xdp_hello_short_frame_no_event (f : Frame) (ok : Bool)
    (h : f.bytes.length < 14) :
    xdp_hello f ok =
      { verdict := XDP_PASS, reserveAttempted := false, submitted := none } := by
  simp only [xdp_hello]
  rw [if_pos (by omega)]
  rfl

theorem xdp_hello_short_frame_no_event_witness :
    shortFrame.bytes.length < 14 ∧
    xdp_hello shortFrame true =
      { verdict := XDP_PASS, reserveAttempted := false, submitted := none } :=
  ⟨by decide, xdp_hello_short_frame_no_event shortFrame true (by decide)⟩

/-- Claim C3: for every frame whose 16-bit Ethernet type field (loaded
from offset 12 in wire big-endian order and converted to host order by
`bpf_ntohs`) is not the IPv4 ethertype 0x0800, `xdp_hello` produces no
event and attempts no reservation, regardless of the remaining payload
content, and returns `XDP_PASS`. -/
theorem xdp_hello_non_ipv4_no_event (f : Frame) (ok : Bool)
    (h : ntohs (load16le f 12) ≠ ETH_P_IP) :
    xdp_hello f ok =
      { verdict := XDP_PASS, reserveAttempted := false, submitted := none } := by
  simp only [xdp_hello]
  by_cases h14 : 14 > f.bytes.length
  · rw [if_pos h14]; rfl
  · rw [if_neg h14, if_neg h]; rfl

theorem xdp_hello_non_ipv4_no_event_witness :
    ntohs (load16le arpFrame 12) ≠ ETH_P_IP ∧
    xdp_hello arpFrame true =
      { verdict := XDP_PASS, reserveAttempted := false, submitted := none } :=
  ⟨by decide, xdp_hello_non_ipv4_no_event arpFrame true (by decide)⟩

/-- Claim C4: for every well-formed Ethernet+IPv4 frame (at least
14 + 20 bytes, ethertype 0x0800) whose IP protocol number (byte 23) is
neither TCP (6) nor UDP (17), the decoder produces an event (when the
ring-buffer reservation succeeds) whose `src_port` and `dst_port` are 0
and whose `protocol` equals the frame's IP protocol number. -/
theorem xdp_hello_other_proto_event (f : Frame)
    (hlen : 34 ≤ f.bytes.length)
    (hip : ntohs (load16le f 12) = ETH_P_IP)
    (ht : byteAt f 23 ≠ IPPROTO_TCP)
    (hu : byteAt f 23 ≠ IPPROTO_UDP) :
    ∃ e, (xdp_hello f true).submitted = some e ∧
      e.src_port = 0 ∧ e.dst_port = 0 ∧ e.protocol = byteAt f 23 := by
  have h14 : ¬(14 > f.bytes.length) := by omega
  have h34 : ¬(14 + 20 > f.bytes.length) := by omega
  simp only [xdp_hello]
  rw [if_neg h14, if_pos hip, if_neg h34, if_neg ht, if_neg hu]
  exact ⟨_, rfl, rfl, rfl, rfl⟩

theorem xdp_hello_other_proto_event_witness :
    34 ≤ icmpFrame.bytes.length ∧
    ntohs (load16le icmpFrame 12) = ETH_P_IP ∧
    byteAt icmpFrame 23 ≠ IPPROTO_TCP ∧
    byteAt icmpFrame 23 ≠ IPPROTO_UDP ∧
    ∃ e, (xdp_hello icmpFrame true).submitted = some e ∧
      e.src_port = 0 ∧ e.dst_port = 0 ∧ e.protocol = byteAt icmpFrame 23 :=
  ⟨by decide, by decide, by decide, by decide,
    xdp_hello_other_proto_event icmpFrame (by decide) (by decide) (by decide)
      (by decide)⟩

/-- Claim C5: for every well-formed Ethernet+IPv4+TCP frame (ethertype
0x0800, at least 34 bytes, protocol 6, ihl at least 5) in which the
complete 20-byte TCP header is present at offset `14 + ihl * 4`, the
decoder produces an event (when reservation succeeds) whose `src_port`
and `dst_port` equal the TCP header's source and destination port
fields converted from big-endian wire order to host order. -/
theorem xdp_hello_tcp_ports_event (f : Frame)
    (hlen : 34 ≤ f.bytes.length)
    (hip : ntohs (load16le f 12) = ETH_P_IP)
    (htcp : byteAt f 23 = IPPROTO_TCP)
    (hihl : 5 ≤ byteAt f 14 % 16)
    (hfit : 14 + byteAt f 14 % 16 * 4 + 20 ≤ f.bytes.length) :
    ∃ e, (xdp_hello f true).submitted = some e ∧
      e.src_port = byteAt f (14 + byteAt f 14 % 16 * 4) * 256 +
        byteAt f (14 + byteAt f 14 % 16 * 4 + 1) ∧
      e.dst_port = byteAt f (14 + byteAt f 14 % 16 * 4 + 2) * 256 +
        byteAt f (14 + byteAt f 14 % 16 * 4 + 3) := by
  have h14 : ¬(14 > f.bytes.length) := by omega
  have h34 : ¬(14 + 20 > f.bytes.length) := by omega
  have hf : ¬(14 + byteAt f 14 % 16 * 4 + 20 > f.bytes.length) := by omega
  simp only [xdp_hello]
  rw [if_neg h14, if_pos hip, if_neg h34, if_pos htcp, if_neg hf]
  refine ⟨_, rfl, ?_, ?_⟩
  · rw [ntohs_load16le f _ _ rfl]
  · rw [ntohs_load16le f (14 + byteAt f 14 % 16 * 4 + 2)
      (14 + byteAt f 14 % 16 * 4 + 3) (by omega)]

theorem xdp_hello_tcp_ports_event_witness :
    34 ≤ tcpFrame.bytes.length ∧
    ntohs (load16le tcpFrame 12) = ETH_P_IP ∧
    byteAt tcpFrame 23 = IPPROTO_TCP ∧
    5 ≤ byteAt tcpFrame 14 % 16 ∧
    14 + byteAt tcpFrame 14 % 16 * 4 + 20 ≤ tcpFrame.bytes.length ∧
    ∃ e, (xdp_hello tcpFrame true).submitted = some e ∧
      e.src_port = byteAt tcpFrame (14 + byteAt tcpFrame 14 % 16 * 4) * 256 +
        byteAt tcpFrame (14 + byteAt tcpFrame 14 % 16 * 4 + 1) ∧
      e.dst_port = byteAt tcpFrame (14 + byteAt tcpFrame 14 % 16 * 4 + 2) * 256 +
        byteAt tcpFrame (14 + byteAt tcpFrame 14 % 16 * 4 + 3) :=
  ⟨by decide, by decide, by decide, by decide, by decide,
    xdp_hello_tcp_ports_event tcpFrame (by decide) (by decide) (by decide)
      (by decide) (by decide)⟩

/-- Claim C6: for every frame whose Ethernet and IPv4 headers parse
successfully (at least 34 bytes, ethertype 0x0800) and whose IP
protocol is TCP (6) or UDP (17), if the minimum transport header (20
bytes for TCP, 8 for UDP) does not fit within the frame at offset
`14 + ihl * 4`, then `xdp_hello` produces no event at all — not an
IP-only event with zero ports — and no reservation is attempted. -/
theorem xdp_hello_truncated_transport_no_event (f : Frame) (ok : Bool)
    (hlen : 34 ≤ f.bytes.length)
    (hip : ntohs (load16le f 12) = ETH_P_IP)
    (hfail :
      (byteAt f 23 = IPPROTO_TCP ∧
        14 + byteAt f 14 % 16 * 4 + 20 > f.bytes.length) ∨
      (byteAt f 23 = IPPROTO_UDP ∧
        14 + byteAt f 14 % 16 * 4 + 8 > f.bytes.length)) :
    xdp_hello f ok =
      { verdict := XDP_PASS, reserveAttempted := false, submitted := none } := by
  have h14 : ¬(14 > f.bytes.length) := by omega
  have h34 : ¬(14 + 20 > f.bytes.length) := by omega
  simp only [xdp_hello]
  rcases hfail with ⟨htcp, hgt⟩ | ⟨hudp, hgt⟩
  · rw [if_neg h14, if_pos hip, if_neg h34, if_pos htcp, if_pos hgt]
    rfl
  · have ht : byteAt f 23 ≠ IPPROTO_TCP := by
      rw [hudp]; unfold IPPROTO_UDP IPPROTO_TCP; omega
    rw [if_neg h14, if_pos hip, if_neg h34, if_neg ht, if_pos hudp, if_pos hgt]
    rfl

theorem xdp_hello_truncated_transport_no_event_witness :
    34 ≤ truncTcpFrame.bytes.length ∧
    ntohs (load16le truncTcpFrame 12) = ETH_P_IP ∧
    byteAt truncTcpFrame 23 = IPPROTO_TCP ∧
    14 + byteAt truncTcpFrame 14 % 16 * 4 + 20 > truncTcpFrame.bytes.length ∧
    xdp_hello truncTcpFrame true =
      { verdict := XDP_PASS, reserveAttempted := false, submitted := none } :=
  ⟨by decide, by decide, by decide, by decide,
    xdp_hello_truncated_transport_no_event truncTcpFrame true (by decide)
      (by decide) (Or.inl ⟨by decide, by decide⟩)⟩

/-- Claim C7: for every input frame and every ring-buffer outcome, the
verdict returned by `xdp_hello` is `XDP_PASS` — on short frames,
non-IPv4 frames, truncated transport headers, successful emission and
queue-full drops alike; no branch returns a drop or redirect verdict. -/
theorem xdp_hello_verdict_pass (f : Frame) (ok : Bool) :
    (xdp_hello f ok).verdict = XDP_PASS := by
  simp only [xdp_hello, emitEvent]
  repeat' split
  all_goals rfl

/-- Counterexample to claim C8 as stated: on the concrete TCP frame
`tcpFrame` (whose ethertype wire bytes are 0x08 at offset 12 and 0x00
at offset 13) an event is produced, but its `eth_proto[0]` field is 0,
not the frame's byte at offset 12 (which is 8): on a little-endian host
`eth->h_proto >> 8` extracts the wire low byte, not the wire high
byte. -/
theorem xdp_hello_eth_proto_counterexample :
    (xdp_hello tcpFrame true).submitted = some tcpFrameEvent ∧
    tcpFrameEvent.eth_proto0 = 0 ∧
    byteAt tcpFrame 12 = 8 ∧
    tcpFrameEvent.eth_proto0 ≠ byteAt tcpFrame 12 := by
  exact ⟨by decide, by decide, by decide, by decide⟩

/-- Claim C8 (amended): for every frame that yields an event, the
event's `eth_proto[0]` equals the frame's byte at offset 13 (the wire
low byte of the Ethernet type) and `eth_proto[1]` equals the byte at
offset 12 (the wire high byte) — the 16-bit field is loaded
little-endian and split without byte-order conversion, so the two wire
bytes land swapped; the event records the total frame length in
`pkt_len` and the IPv4 addresses in network byte order (the raw wire
bytes at offsets 26 and 30) without conversion. -/
theorem xdp_hello_event_fields_amended (f : Frame) (ok : Bool) (e : xdp_event)
    (h : (xdp_hello f ok).submitted = some e) :
    e.eth_proto0 = byteAt f 13 ∧ e.eth_proto1 = byteAt f 12 ∧
    e.pkt_len = f.bytes.length ∧ e.src_ip = load32le f 26 ∧
    e.dst_ip = load32le f 30 := by
  have h12 := byteAt_lt f 12
  have h13 := byteAt_lt f 13
  rcases xdp_hello_shape f with hs | ⟨p, s, d, hs⟩
  · rw [hs ok] at h
    exact absurd h (by simp [passNoEvent])
  · rw [hs ok] at h
    cases ok with
    | false => exact absurd h (by simp [emitEvent])
    | true =>
      simp only [emitEvent, if_pos, Option.some.injEq] at h
      subst h
      have e1 : load16le f 12 = byteAt f 12 + 256 * byteAt f 13 := by
        norm_num [load16le]
      refine ⟨?_, ?_, rfl, rfl, rfl⟩
      · show load16le f 12 / 256 % 256 = byteAt f 13
        rw [e1]
        omega
      · show load16le f 12 % 256 = byteAt f 12
        rw [e1]
        omega

theorem xdp_hello_event_fields_amended_witness :
    (xdp_hello tcpFrame true).submitted = some tcpFrameEvent ∧
    (tcpFrameEvent.eth_proto0 = byteAt tcpFrame 13 ∧
     tcpFrameEvent.eth_proto1 = byteAt tcpFrame 12 ∧
     tcpFrameEvent.pkt_len = tcpFrame.bytes.length ∧
     tcpFrameEvent.src_ip = load32le tcpFrame 26 ∧
     tcpFrameEvent.dst_ip = load32le tcpFrame 30) :=
  ⟨by decide,
    xdp_hello_event_fields_amended tcpFrame true tcpFrameEvent (by decide)⟩

/-- Claim C9: for every frame that parses successfully (that is, for
which a ring-buffer reservation is attempted), if the reservation fails
the event is silently dropped — nothing is submitted, no error is
propagated, and the verdict is still `XDP_PASS` — while if the
reservation succeeds a record is written in full and committed. -/
theorem xdp_hello_reserve_outcome (f : Frame)
    (h : (xdp_hello f true).reserveAttempted = true) :
    (xdp_hello f false).verdict = XDP_PASS ∧
    (xdp_hello f false).submitted = none ∧
    (xdp_hello f false).reserveAttempted = true ∧
    ∃ e, (xdp_hello f true).submitted = some e := by
  rcases xdp_hello_shape f with hs | ⟨p, s, d, hs⟩
  · rw [hs true] at h
    exact absurd h (by simp [passNoEvent])
  · rw [hs false, hs true]
    exact ⟨rfl, rfl, rfl, _, rfl⟩

theorem xdp_hello_reserve_outcome_witness :
    (xdp_hello icmpFrame true).reserveAttempted = true ∧
    ((xdp_hello icmpFrame false).verdict = XDP_PASS ∧
     (xdp_hello icmpFrame false).submitted = none ∧
     (xdp_hello icmpFrame false).reserveAttempted = true ∧
     ∃ e, (xdp_hello icmpFrame true).submitted = some e) :=
  ⟨by decide, xdp_hello_reserve_outcome icmpFrame (by decide)⟩

/-- Claim C10 (implicit behavior): the decoder never validates that ihl
is at least 5, so for every Ethernet+IPv4 frame with protocol TCP (6)
or UDP (17) and ihl below 5 whose transport bounds check still passes,
the ports are read at offset `14 + ihl * 4`, which lies inside the IPv4
header region `[14, 34)` itself, and an event is still emitted (when
reservation succeeds) with those bytes as its big-endian port
values. -/
theorem xdp_hello_ihl_below_min_ports (f : Frame)
    (hlen : 34 ≤ f.bytes.length)
    (hip : ntohs (load16le f 12) = ETH_P_IP)
    (hihl : byteAt f 14 % 16 < 5)
    (hpr : byteAt f 23 = IPPROTO_TCP ∨ byteAt f 23 = IPPROTO_UDP)
    (hfitT : byteAt f 23 = IPPROTO_TCP →
      14 + byteAt f 14 % 16 * 4 + 20 ≤ f.bytes.length)
    (hfitU : byteAt f 23 = IPPROTO_UDP →
      14 + byteAt f 14 % 16 * 4 + 8 ≤ f.bytes.length) :
    14 + byteAt f 14 % 16 * 4 + 4 ≤ 34 ∧
    ∃ e, (xdp_hello f true).submitted = some e ∧
      e.src_port = byteAt f (14 + byteAt f 14 % 16 * 4) * 256 +
        byteAt f (14 + byteAt f 14 % 16 * 4 + 1) ∧
      e.dst_port = byteAt f (14 + byteAt f 14 % 16 * 4 + 2) * 256 +
        byteAt f (14 + byteAt f 14 % 16 * 4 + 3) := by
  have h14 : ¬(14 > f.bytes.length) := by omega
  have h34 : ¬(14 + 20 > f.bytes.length) := by omega
  refine ⟨by omega, ?_⟩
  simp only [xdp_hello]
  rcases hpr with htcp | hudp
  · have hf : ¬(14 + byteAt f 14 % 16 * 4 + 20 > f.bytes.length) := by
      have := hfitT htcp; omega
    rw [if_neg h14, if_pos hip, if_neg h34, if_pos htcp, if_neg hf]
    refine ⟨_, rfl, ?_, ?_⟩
    · rw [ntohs_load16le f _ _ rfl]
    · rw [ntohs_load16le f (14 + byteAt f 14 % 16 * 4 + 2)
        (14 + byteAt f 14 % 16 * 4 + 3) (by omega)]
  · have ht : byteAt f 23 ≠ IPPROTO_TCP := by
      rw [hudp]; unfold IPPROTO_UDP IPPROTO_TCP; omega
    have hf : ¬(14 + byteAt f 14 % 16 * 4 + 8 > f.bytes.length) := by
      have := hfitU hudp; omega
    rw [if_neg h14, if_pos hip, if_neg h34, if_neg ht, if_pos hudp, if_neg hf]
    refine ⟨_, rfl, ?_, ?_⟩
    · rw [ntohs_load16le f _ _ rfl]
    · rw [ntohs_load16le f (14 + byteAt f 14 % 16 * 4 + 2)
        (14 + byteAt f 14 % 16 * 4 + 3) (by omega)]

theorem xdp_hello_ihl_below_min_ports_witness :
    34 ≤ ihl0TcpFrame.bytes.length ∧
    ntohs (load16le ihl0TcpFrame 12) = ETH_P_IP ∧
    byteAt ihl0TcpFrame 14 % 16 < 5 ∧
    byteAt ihl0TcpFrame 23 = IPPROTO_TCP ∧
    (14 + byteAt ihl0TcpFrame 14 % 16 * 4 + 4 ≤ 34 ∧
     ∃ e, (xdp_hello ihl0TcpFrame true).submitted = some e ∧
       e.src_port =
         byteAt ihl0TcpFrame (14 + byteAt ihl0TcpFrame 14 % 16 * 4) * 256 +
           byteAt ihl0TcpFrame (14 + byteAt ihl0TcpFrame 14 % 16 * 4 + 1) ∧
       e.dst_port =
         byteAt ihl0TcpFrame (14 + byteAt ihl0TcpFrame 14 % 16 * 4 + 2) * 256 +
           byteAt ihl0TcpFrame (14 + byteAt ihl0TcpFrame 14 % 16 * 4 + 3)) :=
  ⟨by decide, by decide, by decide, by decide,
    xdp_hello_ihl_below_min_ports ihl0TcpFrame (by decide) (by decide)
      (by decide) (Or.inl (by decide)) (by decide) (by decide)⟩
